import Mathlib

/-!
Verification of the `lmstudio_benchmark` measurement tool
(`src/lmstudio_benchmark/lmstudio_benchmark/main.py`).

The program is a small single-file Python class `LMStudioBenchmark` that
drives timed HTTP chat-completion calls against a local server and
accumulates successful measurement records.  We give a shallow functional
embedding: the network, the wall clock and the resident-memory probe are
an explicit environment (`TrialEnv` for one inference call, `RunEnv` for a
whole run), and each Python method becomes a pure Lean function of that
environment.  Python floats (wall-clock seconds, megabytes) are idealised
as exact rationals; Python's `ZeroDivisionError` on `x / 0.0` is modelled
by an explicit test on the divisor.
-/

namespace LMStudio

/-- Outcome of the `requests.post` / `raise_for_status` / `response.json()`
/ `result['choices'][0]['message']['content']` pipeline of one inference
call (`main.py` lines 35-43).  `exn msg` is any exception raised on the
way (transport failure, non-2xx status via `raise_for_status`, JSON or key
errors while parsing); `ok content usage` is a fully parsed response with
generated text `content` and the optional `usage.total_tokens` field. -/
inductive RequestResult where
  | exn (msg : String)
  | ok (content : String) (usage : Option Nat)
deriving DecidableEq

/-- Environment of one inference call: the request pipeline's outcome and
the four probe samples taken by `measure_inference` (`time.time()` before
and after, process RSS in MB before and after, `main.py` lines 31-39). -/
structure TrialEnv where
  request : RequestResult
  start_time : ℚ
  end_time : ℚ
  start_memory : ℚ
  end_memory : ℚ
deriving DecidableEq

/-- The result dict built by `measure_inference` (`main.py` lines 45-60).
Keys that are absent in the Python dict on the failure path are `Option`
fields holding `none` there. -/
structure Measurement where
  prompt_length : Nat
  response_length : Option Nat
  total_tokens : Option Nat
  latency : Option ℚ
  tokens_per_second : Option ℚ
  memory_usage_mb : Option ℚ
  success : Bool
  error : Option String
deriving DecidableEq

/-- One entry of the `messages` array of the request payload. -/
structure ChatMessage where
  role : String
  content : String
deriving DecidableEq

/-- The JSON payload `measure_inference` posts to `/chat/completions`
(`main.py` lines 24-29). -/
structure ChatPayload where
  messages : List ChatMessage
  max_tokens : Nat
  temperature : ℚ
  stream : Bool
deriving DecidableEq

/-- Default of the `max_tokens` parameter of `measure_inference`
(`main.py` line 21). -/
def default_max_tokens : Nat := 100

/-- Default of the `iterations` parameter of `run_benchmark`
(`main.py` line 62). -/
def default_iterations : Nat := 3

/-- The payload built at `main.py` lines 24-29. -/
def chatPayload (prompt : String) (max_tokens : Nat) : ChatPayload :=
  { messages := [{ role := "user", content := prompt }]
    max_tokens := max_tokens
    temperature := 7 / 10
    stream := false }

/-- The dict returned by the `except` branch of `measure_inference`
(`main.py` lines 55-60): only `prompt_length`, `error` and
`success = False` are set. -/
def failure_measurement (prompt : String) (msg : String) : Measurement :=
  { prompt_length := prompt.length
    response_length := none
    total_tokens := none
    latency := none
    tokens_per_second := none
    memory_usage_mb := none
    success := false
    error := some msg }

/-- `str(e)` for the `ZeroDivisionError` that Python raises when
`total_tokens / (end_time - start_time)` divides an int by the float
`0.0` (`main.py` line 50). -/
def zero_division_message : String := "float division by zero"

/-- `LMStudioBenchmark.measure_inference` (`main.py` lines 21-60) as a
function of the trial environment.  Returns the payload posted to the
completion endpoint together with the measurement dict.  Python's
`ZeroDivisionError` on a zero-duration clock delta is modelled by the
explicit `latency = 0` test; like every other exception of the `try`
block it is caught by `except Exception` and turned into the failure
dict, so the function is total and never propagates a failure. -/
def measure_inference (env : TrialEnv) (prompt : String) (max_tokens : Nat) :
    ChatPayload × Measurement :=
  let payload := chatPayload prompt max_tokens
  match env.request with
  | RequestResult.exn msg => (payload, failure_measurement prompt msg)
  | RequestResult.ok content usage =>
    let latency := env.end_time - env.start_time
    let total_tokens := usage.getD 0
    if latency = 0 then
      (payload, failure_measurement prompt zero_division_message)
    else
      (payload,
        { prompt_length := prompt.length
          response_length := some content.length
          total_tokens := some total_tokens
          latency := some latency
          tokens_per_second := some ((total_tokens : ℚ) / latency)
          memory_usage_mb := some (env.end_memory - env.start_memory)
          success := true
          error := none })

/-- Whether an inference call in environment `env` takes the success path
of `measure_inference`: the request pipeline parsed and the clock delta is
nonzero (else the division raises and the call fails). -/
def TrialEnv.trial_succeeds (env : TrialEnv) : Bool :=
  match env.request with
  | RequestResult.exn _ => false
  | RequestResult.ok _ _ =>
    if env.end_time - env.start_time = 0 then false else true

/-- The measurement dict of one trial as `run_benchmark` obtains it
(`main.py` line 71: `measure_inference` is called with the default
`max_tokens`). -/
def trial_measurement (env : TrialEnv) (prompt : String) : Measurement :=
  (measure_inference env prompt default_max_tokens).2

/-- Outcome of the `requests.get(f"{base_url}/models")` probe of
`check_connection` (`main.py` lines 14-19): an HTTP status code, or a
`requests.RequestException`. -/
inductive ProbeOutcome where
  | status (code : Nat)
  | exn (msg : String)
deriving DecidableEq

/-- `LMStudioBenchmark.check_connection` (`main.py` lines 14-19): true
exactly when the probe returned HTTP 200; any transport exception yields
false. -/
def check_connection (probe : ProbeOutcome) : Bool :=
  match probe with
  | ProbeOutcome.status code => code == 200
  | ProbeOutcome.exn _ => false

/-- The state of an `LMStudioBenchmark` object (`main.py` lines 10-12):
the base URL and the mutable `self.results` accumulator. -/
structure LMStudioBenchmark where
  base_url : String
  results : List Measurement
deriving DecidableEq

/-- `LMStudioBenchmark.__init__` (`main.py` lines 10-12): fresh object
with an empty results list. -/
def LMStudioBenchmark.init (host : String) (port : Nat) : LMStudioBenchmark :=
  { base_url := "http://" ++ host ++ ":" ++ toString port ++ "/v1"
    results := [] }

/-- Environment of one `run_benchmark` call: the connectivity probe's
outcome and, for each completion call in execution order (numbered from
0), the environment of that trial. -/
structure RunEnv where
  probe : ProbeOutcome
  trial : Nat → TrialEnv

/-- The inner `for _ in range(iterations)` loop of `run_benchmark`
(`main.py` lines 70-73) for one prompt, with `k` the index of the next
completion call in the whole run.  Returns the measurements appended to
`self.results` (only those with `success = True`) and the payloads of the
completion calls issued, both in execution order. -/
def run_iterations (trial : Nat → TrialEnv) (prompt : String) (k : Nat) :
    Nat → List Measurement × List ChatPayload
  | 0 => ([], [])
  | Nat.succ n =>
    let r := measure_inference (trial k) prompt default_max_tokens
    let rest := run_iterations trial prompt (k + 1) n
    ((if r.2.success then r.2 :: rest.1 else rest.1), r.1 :: rest.2)

/-- The outer `for prompt in prompts` loop of `run_benchmark`
(`main.py` lines 69-73), with `k` the index of the next completion call. -/
def run_prompts (trial : Nat → TrialEnv) (iterations : Nat) (k : Nat) :
    List String → List Measurement × List ChatPayload
  | [] => ([], [])
  | p :: ps =>
    let here := run_iterations trial p k iterations
    let rest := run_prompts trial iterations (k + iterations) ps
    (here.1 ++ rest.1, here.2 ++ rest.2)

/-- What one call of `run_benchmark` produces: the Python return value
(`ret`), the object state after the call, and the payloads of the
completion calls issued during the call in execution order. -/
structure RunOutput where
  ret : Option (List Measurement)
  state : LMStudioBenchmark
  completion_calls : List ChatPayload
deriving DecidableEq

/-- `LMStudioBenchmark.run_benchmark` (`main.py` lines 62-73).  If the
connectivity check fails the method returns immediately (plain `return`);
otherwise it runs the nested trial loops, appending each successful
measurement to `self.results`.  Both paths of the Python method return
`None`, so `ret` is `none` in both branches. -/
def run_benchmark (b : LMStudioBenchmark) (env : RunEnv) (prompts : List String)
    (iterations : Nat) : RunOutput :=
  if check_connection env.probe then
    let r := run_prompts env.trial iterations 0 prompts
    { ret := none
      state := { b with results := b.results ++ r.1 }
      completion_calls := r.2 }
  else
    { ret := none, state := b, completion_calls := [] }

/-- The measurements `run_benchmark` appends to `self.results` in one call
(empty when the connectivity gate aborts the run). -/
def new_results (env : RunEnv) (prompts : List String) (iterations : Nat) :
    List Measurement :=
  if check_connection env.probe then (run_prompts env.trial iterations 0 prompts).1
  else []

/-- The measurement of every trial of the plan in execution order
(prompt-major, iteration-minor): for the first prompt the trials numbered
`k, k + 1, ..., k + iterations - 1`, then the remaining prompts. -/
def all_trials_from (trial : Nat → TrialEnv) (iterations : Nat) (k : Nat) :
    List String → List Measurement
  | [] => []
  | p :: ps =>
    ((List.range iterations).map fun j => trial_measurement (trial (k + j)) p)
      ++ all_trials_from trial iterations (k + iterations) ps

/-! Concrete environments used by the witnesses. -/

/-- A trial whose request parses with `usage.total_tokens = 5` and a
one-second latency. -/
def sample_ok_env : TrialEnv :=
  { request := RequestResult.ok "hello" (some 5)
    start_time := 0
    end_time := 1
    start_memory := 10
    end_memory := 12 }

/-- A successful trial whose response carries no `usage.total_tokens`. -/
def sample_no_usage_env : TrialEnv :=
  { request := RequestResult.ok "hello" none
    start_time := 0
    end_time := 1
    start_memory := 10
    end_memory := 12 }

/-- A parsed response observed with a zero clock delta. -/
def sample_zero_latency_env : TrialEnv :=
  { request := RequestResult.ok "hello" (some 5)
    start_time := 1
    end_time := 1
    start_memory := 10
    end_memory := 12 }

/-- A trial whose request raises (e.g. an HTTP 500 turned into an
exception by `raise_for_status`). -/
def sample_error_env : TrialEnv :=
  { request := RequestResult.exn "500 Server Error"
    start_time := 0
    end_time := 1
    start_memory := 10
    end_memory := 12 }

/-- A run against a healthy server where every trial succeeds. -/
def sample_good_run : RunEnv :=
  { probe := ProbeOutcome.status 200
    trial := fun _ => sample_ok_env }

/-- A run whose connectivity probe gets HTTP 500. -/
def sample_down_run : RunEnv :=
  { probe := ProbeOutcome.status 500
    trial := fun _ => sample_ok_env }

/-- A run against a healthy server whose first trial fails and whose
later trials succeed. -/
def sample_mixed_run : RunEnv :=
  { probe := ProbeOutcome.status 200
    trial := fun k => if k = 0 then sample_error_env else sample_ok_env }


/-! Basic lemmas about the embedding, shared by the claim theorems. -/

/-- The payload posted by `measure_inference` does not depend on the trial
environment. -/
lemma measure_inference_fst (env : TrialEnv) (p : String) (mt : Nat) :
    (measure_inference env p mt).1 = chatPayload p mt := by
  unfold measure_inference
  cases env.request
  · rfl
  · simp only []
    split <;> rfl

/-- The `success` flag of the measurement is exactly `trial_succeeds` of
the environment. -/
lemma measure_inference_success (env : TrialEnv) (p : String) (mt : Nat) :
    (measure_inference env p mt).2.success = env.trial_succeeds := by
  unfold measure_inference TrialEnv.trial_succeeds
  cases env.request
  · rfl
  · simp only []
    split <;> rfl

/-- Shifting the counter inside a map over `List.range`. -/
lemma range_map_shift {α : Type} (f : Nat → α) (k n : Nat) :
    (List.range n).map (fun j => f (k + 1 + j)) =
      (List.range n).map (fun j => f (k + (j + 1))) := by
  apply List.map_congr_left
  intro a _
  congr 1
  omega

/-- The measurements kept by the inner iteration loop are the successful
ones among the trials `k, k + 1, ..., k + n - 1`, in execution order. -/
lemma run_iterations_fst (trial : Nat → TrialEnv) (p : String) :
    ∀ n k, (run_iterations trial p k n).1 =
      ((List.range n).map fun j => trial_measurement (trial (k + j)) p).filter
        (fun m => m.success) := by
  intro n
  induction n with
  | zero => intro k; rfl
  | succ n ih =>
    intro k
    rw [List.range_succ_eq_map]
    simp only [run_iterations, List.map_cons, List.map_map, List.filter_cons, Nat.add_zero]
    have hshift : (List.range n).map
          ((fun j => trial_measurement (trial (k + j)) p) ∘ Nat.succ) =
        (List.range n).map (fun j => trial_measurement (trial (k + 1 + j)) p) := by
      apply List.map_congr_left
      intro a _
      simp only [Function.comp]
      congr 2
      omega
    rw [hshift, ← ih (k + 1)]
    rcases hs : (measure_inference (trial k) p default_max_tokens).2.success with _ | _ <;>
      simp [trial_measurement, hs]

/-- The payloads issued by the inner iteration loop: `n` copies of the
prompt's payload with the default token budget. -/
lemma run_iterations_snd (trial : Nat → TrialEnv) (p : String) :
    ∀ n k, (run_iterations trial p k n).2 =
      List.replicate n (chatPayload p default_max_tokens) := by
  intro n
  induction n with
  | zero => intro k; rfl
  | succ n ih =>
    intro k
    simp only [run_iterations, List.replicate_succ, measure_inference_fst, ih (k + 1)]

/-- The measurements kept by the prompt loop are the successful trials of
the whole plan, in execution order. -/
lemma run_prompts_fst (trial : Nat → TrialEnv) (N : Nat) :
    ∀ ps k, (run_prompts trial N k ps).1 =
      (all_trials_from trial N k ps).filter (fun m => m.success) := by
  intro ps
  induction ps with
  | nil => intro k; rfl
  | cons p ps ih =>
    intro k
    simp only [run_prompts, all_trials_from, List.filter_append, run_iterations_fst,
      ih (k + N)]

/-- The prompt loop issues one completion call per planned trial:
`iterations` calls for each prompt, in order. -/
lemma run_prompts_snd (trial : Nat → TrialEnv) (N : Nat) :
    ∀ ps k, (run_prompts trial N k ps).2 =
      ps.flatMap (fun p => List.replicate N (chatPayload p default_max_tokens)) := by
  intro ps
  induction ps with
  | nil => intro k; rfl
  | cons p ps ih =>
    intro k
    simp only [run_prompts, List.flatMap_cons, run_iterations_snd, ih (k + N)]

/-- Number of trials in the plan: `iterations` per prompt. -/
lemma all_trials_from_length (trial : Nat → TrialEnv) (N : Nat) :
    ∀ ps k, (all_trials_from trial N k ps).length = ps.length * N := by
  intro ps
  induction ps with
  | nil => intro k; simp [all_trials_from]
  | cons p ps ih =>
    intro k
    simp only [all_trials_from, List.length_append, List.length_map, List.length_range,
      ih (k + N), List.length_cons]
    ring

/-- `run_benchmark` always stores `b.results ++ new_results ...` in the
object state. -/
lemma run_benchmark_results (b : LMStudioBenchmark) (env : RunEnv)
    (prompts : List String) (N : Nat) :
    (run_benchmark b env prompts N).state.results =
      b.results ++ new_results env prompts N := by
  unfold run_benchmark new_results
  split <;> simp

/-- `run_benchmark` always returns `None`. -/
lemma run_benchmark_ret (b : LMStudioBenchmark) (env : RunEnv)
    (prompts : List String) (N : Nat) :
    (run_benchmark b env prompts N).ret = none := by
  unfold run_benchmark
  split <;> rfl

/-- The completion calls a `run_benchmark` call issues: none when the
gate aborts, else those of the prompt loop. -/
lemma run_benchmark_calls (b : LMStudioBenchmark) (env : RunEnv)
    (prompts : List String) (N : Nat) :
    (run_benchmark b env prompts N).completion_calls =
      if check_connection env.probe then (run_prompts env.trial N 0 prompts).2
      else [] := by
  unfold run_benchmark
  split <;> rfl

/-- The sample environment `sample_ok_env` takes the success path. -/
lemma measure_sample_ok_success (p : String) (mt : Nat) :
    (measure_inference sample_ok_env p mt).2.success = true := by
  rw [measure_inference_success]
  norm_num [TrialEnv.trial_succeeds, sample_ok_env]

/-- Every measurement of the plan is the measurement of some trial with a
number below `ps.length * iterations`, for some prompt of the plan. -/
lemma all_trials_from_mem (trial : Nat → TrialEnv) (N : Nat) :
    ∀ ps k m, m ∈ all_trials_from trial N k ps →
      ∃ j, j < ps.length * N ∧ ∃ p, p ∈ ps ∧ m = trial_measurement (trial (k + j)) p := by
  intro ps
  induction ps with
  | nil => intro k m hm; simp [all_trials_from] at hm
  | cons p ps ih =>
    intro k m hm
    have hlen : (p :: ps).length * N = ps.length * N + N := by
      simp [List.length_cons]
      ring
    rcases List.mem_append.mp hm with hm | hm
    · obtain ⟨j, hj, rfl⟩ := List.mem_map.mp hm
      have hj' : j < N := List.mem_range.mp hj
      exact ⟨j, by omega, p, List.mem_cons_self p ps, rfl⟩
    · obtain ⟨j, hj, q, hq, rfl⟩ := ih (k + N) m hm
      refine ⟨N + j, by omega, q, List.mem_cons_of_mem p hq, ?_⟩
      congr 2
      omega

/-- When every trial of the plan takes the success path, the filter kept
by the runner is the full plan. -/
lemma all_trials_from_filter_of_succeeds (trial : Nat → TrialEnv) (N : Nat)
    (ps : List String) (k : Nat)
    (h : ∀ j, j < ps.length * N → (trial (k + j)).trial_succeeds = true) :
    (all_trials_from trial N k ps).filter (fun m => m.success) =
      all_trials_from trial N k ps := by
  apply List.filter_eq_self.mpr
  intro m hm
  obtain ⟨j, hj, p, _, rfl⟩ := all_trials_from_mem trial N ps k m hm
  simpa [trial_measurement, measure_inference_success] using h j hj

/-- Number of completion calls issued by the prompt loop: one per planned
trial. -/
lemma run_prompts_snd_length (trial : Nat → TrialEnv) (N : Nat) :
    ∀ ps k, (run_prompts trial N k ps).2.length = ps.length * N := by
  intro ps
  induction ps with
  | nil => intro k; simp [run_prompts]
  | cons p ps ih =>
    intro k
    simp only [run_prompts, List.length_append, run_iterations_snd, List.length_replicate,
      ih (k + N), List.length_cons]
    ring

/-- Every completion call of the prompt loop carries the default token
budget. -/
lemma run_prompts_max_tokens (trial : Nat → TrialEnv) (N : Nat)
    (ps : List String) (k : Nat) :
    ∀ c ∈ (run_prompts trial N k ps).2, c.max_tokens = default_max_tokens := by
  intro c hc
  rw [run_prompts_snd] at hc
  obtain ⟨p, _, hc⟩ := List.mem_flatMap.mp hc
  rw [List.eq_of_mem_replicate hc]
  rfl

/-- The failure branch of `measure_inference` on any raised exception. -/
lemma measure_inference_exn (env : TrialEnv) (p : String) (mt : Nat) (msg : String)
    (hreq : env.request = RequestResult.exn msg) :
    (measure_inference env p mt).2 = failure_measurement p msg := by
  unfold measure_inference
  rw [hreq]

/-- The success branch of `measure_inference`: the request parsed and the
clock delta is nonzero. -/
lemma measure_inference_ok (env : TrialEnv) (p : String) (mt : Nat)
    (content : String) (usage : Option Nat)
    (hreq : env.request = RequestResult.ok content usage)
    (hl : env.end_time - env.start_time ≠ 0) :
    (measure_inference env p mt).2 =
      { prompt_length := p.length
        response_length := some content.length
        total_tokens := some (usage.getD 0)
        latency := some (env.end_time - env.start_time)
        tokens_per_second :=
          some ((usage.getD 0 : ℚ) / (env.end_time - env.start_time))
        memory_usage_mb := some (env.end_memory - env.start_memory)
        success := true
        error := none } := by
  unfold measure_inference
  rw [hreq]
  simp [hl]

/-- The division-by-zero branch of `measure_inference`: the request parsed
but the clock delta is zero, so the `tokens_per_second` division raises
`ZeroDivisionError` and the `except` branch answers. -/
lemma measure_inference_zero (env : TrialEnv) (p : String) (mt : Nat)
    (content : String) (usage : Option Nat)
    (hreq : env.request = RequestResult.ok content usage)
    (hl : env.end_time - env.start_time = 0) :
    (measure_inference env p mt).2 = failure_measurement p zero_division_message := by
  unfold measure_inference
  rw [hreq]
  simp [hl]

/-! The claims. -/

/-- C1: every successful measurement of `measure_inference` carries
`tokens_per_second = total_tokens / latency` where `latency` is the delta
of the two wall-clock samples; and when the response carries no
`usage.total_tokens`, the value used for `total_tokens` is `0`, making
`tokens_per_second` equal to `0`. -/
theorem claim_C1 (env : TrialEnv) (p : String) (mt : Nat) :
    ((measure_inference env p mt).2.success = true →
      ∃ t : Nat, ∃ l : ℚ,
        (measure_inference env p mt).2.total_tokens = some t ∧
        (measure_inference env p mt).2.latency = some l ∧
        l = env.end_time - env.start_time ∧
        (measure_inference env p mt).2.tokens_per_second = some ((t : ℚ) / l)) ∧
    (∀ content : String, env.request = RequestResult.ok content none →
      (measure_inference env p mt).2.success = true →
      (measure_inference env p mt).2.total_tokens = some 0 ∧
      (measure_inference env p mt).2.tokens_per_second = some 0) := by
  rcases hreq : env.request with msg | ⟨content, usage⟩
  · refine ⟨fun hs => ?_, fun c hc => ?_⟩
    · rw [measure_inference_exn env p mt msg hreq] at hs
      exact absurd hs (by simp [failure_measurement])
    · exact absurd hc (by simp)
  · by_cases hl : env.end_time - env.start_time = 0
    · refine ⟨fun hs => ?_, fun c hc hs => ?_⟩ <;>
      · rw [measure_inference_zero env p mt content usage hreq hl] at hs
        exact absurd hs (by simp [failure_measurement])
    · refine ⟨fun _ => ?_, fun c hc _ => ?_⟩
      · refine ⟨usage.getD 0, env.end_time - env.start_time, ?_, ?_, rfl, ?_⟩ <;>
          rw [measure_inference_ok env p mt content usage hreq hl]
      · have husage : usage = none := by
          injection hc with h1 h2
        subst husage
        rw [measure_inference_ok env p mt content none hreq hl]
        simp

/-- Witness for C1 at a concrete successful trial whose response carries
no `usage.total_tokens`: the value used is `0` and `tokens_per_second`
is `0`. -/
theorem claim_C1_witness :
    (measure_inference sample_no_usage_env "hi" 100).2.total_tokens = some 0 ∧
    (measure_inference sample_no_usage_env "hi" 100).2.tokens_per_second = some 0 :=
  (claim_C1 sample_no_usage_env "hi" 100).2 "hello" rfl
    (by
      rw [measure_inference_success]
      norm_num [TrialEnv.trial_succeeds, sample_no_usage_env])

/-- C2: a trial whose request parses but whose two wall-clock samples
coincide takes the division-by-zero path: the `int / float` division
raises Python's `ZeroDivisionError` (a subclass of `ArithmeticError`), so
the call fails — the blanket `except` turns it into a failure record
whose error text is `str(ZeroDivisionError)` — instead of producing an
infinity or an ordinary success value. -/
theorem claim_C2 (env : TrialEnv) (p : String) (mt : Nat)
    (content : String) (usage : Option Nat)
    (hreq : env.request = RequestResult.ok content usage)
    (hl : env.end_time - env.start_time = 0) :
    (measure_inference env p mt).2.success = false ∧
    (measure_inference env p mt).2.error = some zero_division_message ∧
    (measure_inference env p mt).2.tokens_per_second = none ∧
    (measure_inference env p mt).2 = failure_measurement p zero_division_message := by
  rw [measure_inference_zero env p mt content usage hreq hl]
  exact ⟨rfl, rfl, rfl, rfl⟩

/-- Witness for C2 at a concrete trial observed with a zero clock
delta. -/
theorem claim_C2_witness :
    (measure_inference sample_zero_latency_env "hi" 100).2.success = false ∧
    (measure_inference sample_zero_latency_env "hi" 100).2.error =
      some zero_division_message ∧
    (measure_inference sample_zero_latency_env "hi" 100).2.tokens_per_second = none ∧
    (measure_inference sample_zero_latency_env "hi" 100).2 =
      failure_measurement "hi" zero_division_message :=
  claim_C2 sample_zero_latency_env "hi" 100 "hello" (some 5) rfl
    (by norm_num [sample_zero_latency_env])

/-- C3: on any transport, HTTP-status or parsing failure (any exception
of the `try` block), `measure_inference` returns — it never propagates
the failure — a measurement with `success = false`, `prompt_length` the
character count of the prompt, the error description, and none of the
numeric fields populated. -/
theorem claim_C3 (env : TrialEnv) (p : String) (mt : Nat) (msg : String)
    (hreq : env.request = RequestResult.exn msg) :
    (measure_inference env p mt).2.success = false ∧
    (measure_inference env p mt).2.prompt_length = p.length ∧
    (measure_inference env p mt).2.error = some msg ∧
    (measure_inference env p mt).2.response_length = none ∧
    (measure_inference env p mt).2.total_tokens = none ∧
    (measure_inference env p mt).2.latency = none ∧
    (measure_inference env p mt).2.tokens_per_second = none ∧
    (measure_inference env p mt).2.memory_usage_mb = none := by
  rw [measure_inference_exn env p mt msg hreq]
  exact ⟨rfl, rfl, rfl, rfl, rfl, rfl, rfl, rfl⟩

/-- Witness for C3 at a concrete trial whose request raises. -/
theorem claim_C3_witness :
    (measure_inference sample_error_env "hi" 100).2.success = false ∧
    (measure_inference sample_error_env "hi" 100).2.prompt_length = "hi".length ∧
    (measure_inference sample_error_env "hi" 100).2.error = some "500 Server Error" ∧
    (measure_inference sample_error_env "hi" 100).2.response_length = none ∧
    (measure_inference sample_error_env "hi" 100).2.total_tokens = none ∧
    (measure_inference sample_error_env "hi" 100).2.latency = none ∧
    (measure_inference sample_error_env "hi" 100).2.tokens_per_second = none ∧
    (measure_inference sample_error_env "hi" 100).2.memory_usage_mb = none :=
  claim_C3 sample_error_env "hi" 100 "500 Server Error" rfl

/-- C4: when the connectivity probe of the model-listing endpoint does
not succeed (non-200 status or transport exception), a run on a fresh
benchmark object aborts before any trial: it issues zero completion
calls and its measurement set is empty. -/
theorem claim_C4 (host : String) (port : Nat) (env : RunEnv)
    (prompts : List String) (N : Nat)
    (hprobe : check_connection env.probe = false) :
    (run_benchmark (LMStudioBenchmark.init host port) env prompts N).completion_calls
        = [] ∧
    (run_benchmark (LMStudioBenchmark.init host port) env prompts N).state.results
        = [] := by
  unfold run_benchmark
  rw [hprobe]
  exact ⟨rfl, rfl⟩

/-- Witness for C4 at a probe answered with HTTP 500. -/
theorem claim_C4_witness :
    (run_benchmark (LMStudioBenchmark.init "localhost" 1234) sample_down_run
        ["hi"] 3).completion_calls = [] ∧
    (run_benchmark (LMStudioBenchmark.init "localhost" 1234) sample_down_run
        ["hi"] 3).state.results = [] :=
  claim_C4 "localhost" 1234 sample_down_run ["hi"] 3 rfl

/-- C5: for a non-empty prompt list and a positive iteration count, a run
on a fresh object in which every trial succeeds stores exactly
`N * M` measurements, and they are exactly the trials of the plan in
prompt-major, iteration-minor order (`all_trials_from` lists, for each
prompt in sequence, its `N` iterations in order). -/
theorem claim_C5 (host : String) (port : Nat) (env : RunEnv)
    (prompts : List String) (N : Nat)
    (hconn : check_connection env.probe = true)
    (_hne : prompts ≠ []) (_hN : 0 < N)
    (hsucc : ∀ j, j < prompts.length * N → (env.trial j).trial_succeeds = true) :
    (run_benchmark (LMStudioBenchmark.init host port) env prompts N).state.results =
      all_trials_from env.trial N 0 prompts ∧
    (run_benchmark (LMStudioBenchmark.init host port) env prompts N).state.results.length
      = N * prompts.length := by
  have h1 : (run_benchmark (LMStudioBenchmark.init host port) env prompts N).state.results
      = all_trials_from env.trial N 0 prompts := by
    rw [run_benchmark_results]
    simp only [new_results, hconn, if_true, LMStudioBenchmark.init, List.nil_append]
    rw [run_prompts_fst]
    apply all_trials_from_filter_of_succeeds
    intro j hj
    rw [Nat.zero_add]
    exact hsucc j hj
  refine ⟨h1, ?_⟩
  rw [h1, all_trials_from_length]
  ring

/-- Witness for C5: two prompts, two iterations, every trial succeeds. -/
theorem claim_C5_witness :
    (run_benchmark (LMStudioBenchmark.init "localhost" 1234) sample_good_run
        ["hi", "hey"] 2).state.results =
      all_trials_from sample_good_run.trial 2 0 ["hi", "hey"] ∧
    (run_benchmark (LMStudioBenchmark.init "localhost" 1234) sample_good_run
        ["hi", "hey"] 2).state.results.length = 2 * ["hi", "hey"].length :=
  claim_C5 "localhost" 1234 sample_good_run ["hi", "hey"] 2 rfl (by simp)
    (by norm_num)
    (fun j hj => by
      norm_num [sample_good_run, TrialEnv.trial_succeeds, sample_ok_env])

/-- C6: when the gate passes, the stored measurements are exactly the
successful trials of the plan (failed trials are dropped), kept in trial
execution order, and every planned trial is still executed — one
completion call per trial, failures included. -/
theorem claim_C6 (b : LMStudioBenchmark) (env : RunEnv)
    (prompts : List String) (N : Nat)
    (hconn : check_connection env.probe = true) :
    (run_benchmark b env prompts N).state.results =
      b.results ++ (all_trials_from env.trial N 0 prompts).filter (fun m => m.success) ∧
    (run_benchmark b env prompts N).completion_calls.length = prompts.length * N := by
  constructor
  · rw [run_benchmark_results]
    simp only [new_results, hconn, if_true]
    rw [run_prompts_fst]
  · rw [run_benchmark_calls]
    simp only [hconn, if_true]
    exact run_prompts_snd_length env.trial N prompts 0

/-- Witness for C6 at a run whose first trial fails and whose second
succeeds. -/
theorem claim_C6_witness :
    (run_benchmark (LMStudioBenchmark.init "localhost" 1234) sample_mixed_run
        ["hi"] 2).state.results =
      (LMStudioBenchmark.init "localhost" 1234).results ++
        (all_trials_from sample_mixed_run.trial 2 0 ["hi"]).filter (fun m => m.success) ∧
    (run_benchmark (LMStudioBenchmark.init "localhost" 1234) sample_mixed_run
        ["hi"] 2).completion_calls.length = ["hi"].length * 2 :=
  claim_C6 (LMStudioBenchmark.init "localhost" 1234) sample_mixed_run ["hi"] 2 rfl

/-- C7, counterexample: at a concrete fully-successful run,
`run_benchmark` returns `None` although the object's stored measurement
set is non-empty, so the method does not return the accumulated
measurement set as its result value. -/
theorem claim_C7_counterexample :
    (run_benchmark (LMStudioBenchmark.init "localhost" 1234) sample_good_run
        ["hi"] 1).ret = none ∧
    (run_benchmark (LMStudioBenchmark.init "localhost" 1234) sample_good_run
        ["hi"] 1).state.results ≠ [] ∧
    ¬ ((run_benchmark (LMStudioBenchmark.init "localhost" 1234) sample_good_run
          ["hi"] 1).ret =
        some ((run_benchmark (LMStudioBenchmark.init "localhost" 1234) sample_good_run
          ["hi"] 1).state.results)) := by
  have hr := run_benchmark_ret (LMStudioBenchmark.init "localhost" 1234)
    sample_good_run ["hi"] 1
  have hs : (run_benchmark (LMStudioBenchmark.init "localhost" 1234) sample_good_run
      ["hi"] 1).state.results ≠ [] := by
    rw [run_benchmark_results]
    simp [new_results, sample_good_run, check_connection, LMStudioBenchmark.init,
      run_prompts, run_iterations, measure_sample_ok_success]
  refine ⟨hr, hs, fun h => ?_⟩
  rw [hr] at h
  exact Option.noConfusion h

/-- C7, amended: `run_benchmark` returns nothing (`None`), and the
accumulated measurement set is instead kept as mutable state on the
benchmark object — after the call, `self.results` holds the previous
contents followed by this run's successful measurements. -/
theorem claim_C7 (b : LMStudioBenchmark) (env : RunEnv)
    (prompts : List String) (N : Nat) :
    (run_benchmark b env prompts N).ret = none ∧
    (run_benchmark b env prompts N).state.results =
      b.results ++ new_results env prompts N :=
  ⟨run_benchmark_ret b env prompts N, run_benchmark_results b env prompts N⟩

/-- C8: the body posted to the chat-completion endpoint holds exactly one
message, of role `user` with the prompt as content, together with the
given `max_tokens`, temperature `0.7` and streaming disabled. -/
theorem claim_C8 (env : TrialEnv) (p : String) (mt : Nat) :
    (measure_inference env p mt).1 =
      { messages := [{ role := "user", content := p }]
        max_tokens := mt
        temperature := 7 / 10
        stream := false } := by
  rw [measure_inference_fst]
  rfl

/-- C9: the runner never forwards a caller-chosen token budget: every
completion call issued by `run_benchmark` carries `max_tokens = 100`, the
default of `measure_inference`. -/
theorem claim_C9 (b : LMStudioBenchmark) (env : RunEnv)
    (prompts : List String) (N : Nat) :
    ∀ c ∈ (run_benchmark b env prompts N).completion_calls, c.max_tokens = 100 := by
  intro c hc
  rw [run_benchmark_calls] at hc
  split at hc
  · have h := run_prompts_max_tokens env.trial N prompts 0 c hc
    simpa [default_max_tokens] using h
  · simp at hc

/-- Witness for C9 at a concrete one-trial run whose single completion
call is the payload for prompt `"hi"`. -/
theorem claim_C9_witness : (chatPayload "hi" 100).max_tokens = 100 :=
  claim_C9 (LMStudioBenchmark.init "localhost" 1234) sample_good_run ["hi"] 1
    (chatPayload "hi" 100)
    (by
      rw [run_benchmark_calls]
      rw [run_prompts_snd]
      simp [sample_good_run, check_connection, default_max_tokens])

/-- C10: the results accumulator is never cleared: a second
`run_benchmark` call on the same object appends its successful
measurements after those of the first, so the stored set is the
concatenation of all runs' results rather than the latest run's only. -/
theorem claim_C10 (b : LMStudioBenchmark) (e1 e2 : RunEnv)
    (ps1 ps2 : List String) (n1 n2 : Nat) :
    (run_benchmark (run_benchmark b e1 ps1 n1).state e2 ps2 n2).state.results =
      b.results ++ new_results e1 ps1 n1 ++ new_results e2 ps2 n2 := by
  rw [run_benchmark_results, run_benchmark_results]

end LMStudio
